import Mathlib

/-!
Verification of the eufy-automation core against its specification.

The JavaScript source is shallowly embedded: each JS class becomes a Lean
structure holding its fields, each method a pure Lean function taking and
returning that state.  JS `Map`s become association lists (insertion order
preserved, `set` updates in place, exactly like `Map`).  Wall-clock time is
an explicit `Int` parameter (epoch milliseconds, or epoch seconds where the
source uses `.unix()`).  Sources of nondeterminism that the code reads from
the outside world — `crypto.randomBytes`, the md5 digest prefix, and the
success or failure of external service calls — are passed in as explicit
oracle arguments, so every definition is executable.
-/

namespace EufyAutomation

/-! ### Association lists modeling JavaScript `Map` -/

/-- `Map.get`: first binding of the key, if any. -/
def lookupA {κ ν : Type} [DecidableEq κ] : List (κ × ν) → κ → Option ν
  | [], _ => none
  | (k, v) :: rest, key => if k = key then some v else lookupA rest key

/-- `Map.set`: update the existing binding in place, else append. -/
def setA {κ ν : Type} [DecidableEq κ] : List (κ × ν) → κ → ν → List (κ × ν)
  | [], key, val => [(key, val)]
  | (k, v) :: rest, key, val =>
      if k = key then (k, val) :: rest else (k, v) :: setA rest key val

/-- `Map.delete`: remove the binding of the key. -/
def delA {κ ν : Type} [DecidableEq κ] : List (κ × ν) → κ → List (κ × ν)
  | [], _ => []
  | (k, v) :: rest, key => if k = key then rest else (k, v) :: delA rest key

/-! ### `src/utils/accessTokens.js` — `AccessTokenManager`

Credential data attached to a token or code.  Times are epoch milliseconds
(`new Date(...)` / `moment` instants); `moment(x).subtract(15, 'minutes')`
becomes `x - 15 * 60000`, `moment(x).add(30, 'minutes')` becomes
`x + 30 * 60000`. -/

structure TokenData where
  eventId : Nat
  startTime : Int
  endTime : Int
  used : Bool
  usedAt : Option Int
  deriving Repr, DecidableEq

/-- The `AccessTokenManager` instance state: its two `Map`s. -/
structure AccessState where
  activeTokens : List (String × TokenData)
  activeCodes : List (String × TokenData)
  deriving Repr, DecidableEq

/-- Result of `validateAccessToken` / `validateAccessCode`:
the `{ valid, reason }` object (the granted branch also carries the
credential snapshot as `eventData`). -/
structure VResult where
  valid : Bool
  reason : String
  eventData : Option TokenData
  deriving Repr, DecidableEq

/-- Two-digit zero padding used by `moment(..).format('HH:mm')`. -/
def pad2 (n : Int) : String :=
  if n < 10 then "0" ++ toString n else toString n

/-- `moment(accessStart).format('HH:mm')` on an epoch-millisecond instant
(rendered in UTC; the source renders in server-local time, which only
shifts the digits, not the structure of the message). -/
def formatHHMM (ms : Int) : String :=
  pad2 ((ms / 3600000) % 24) ++ ":" ++ pad2 ((ms / 60000) % 60)

/-- `AccessTokenManager.validateAccessToken(token)` at time `now`:
not-found check, then the `used` check, then the two window checks
(`accessStart = startTime − 15 min`, `accessEnd = endTime + 30 min`),
and only then `used := true`.  Returns the result and the new state. -/
def validateAccessToken (st : AccessState) (token : String) (now : Int) :
    VResult × AccessState :=
  match lookupA st.activeTokens token with
  | none => ({ valid := false, reason := "Token not found", eventData := none }, st)
  | some d =>
    if d.used then
      ({ valid := false, reason := "Token already used", eventData := none }, st)
    else
      let accessStart := d.startTime - 15 * 60000
      let accessEnd := d.endTime + 30 * 60000
      if now < accessStart then
        ({ valid := false,
           reason := "Too early - access starts at " ++ formatHHMM accessStart,
           eventData := none }, st)
      else if accessEnd < now then
        ({ valid := false, reason := "Token expired", eventData := none }, st)
      else
        let d' : TokenData := { d with used := true, usedAt := some now }
        ({ valid := true, reason := "Access granted", eventData := some d' },
         { st with activeTokens := setA st.activeTokens token d' })

/-- `AccessTokenManager.validateAccessCode(code)` at time `now`.  Unlike the
token path, both window violations share the single branch
`if (now < accessStart || now > accessEnd)` and the single reason string
`'Code not valid at this time'`. -/
def validateAccessCode (st : AccessState) (code : String) (now : Int) :
    VResult × AccessState :=
  match lookupA st.activeCodes code with
  | none => ({ valid := false, reason := "Invalid code", eventData := none }, st)
  | some d =>
    if d.used then
      ({ valid := false, reason := "Code already used", eventData := none }, st)
    else
      let accessStart := d.startTime - 15 * 60000
      let accessEnd := d.endTime + 30 * 60000
      if now < accessStart ∨ accessEnd < now then
        ({ valid := false, reason := "Code not valid at this time", eventData := none }, st)
      else
        let d' : TokenData := { d with used := true, usedAt := some now }
        ({ valid := true, reason := "Access granted", eventData := some d' },
         { st with activeCodes := setA st.activeCodes code d' })

/-- `generateAccessToken(event)`: stores a fresh credential with
`used: false` under the (externally drawn) random token string. -/
def generateAccessToken (st : AccessState) (token : String)
    (eventId : Nat) (startTime endTime : Int) : AccessState :=
  let d : TokenData :=
    { eventId := eventId, startTime := startTime, endTime := endTime,
      used := false, usedAt := none }
  { st with activeTokens := setA st.activeTokens token d }

/-- `generateAccessCode(event)`: stores a fresh credential with
`used: false` under the (externally drawn) 6-digit code string. -/
def generateAccessCode (st : AccessState) (code : String)
    (eventId : Nat) (startTime endTime : Int) : AccessState :=
  let d : TokenData :=
    { eventId := eventId, startTime := startTime, endTime := endTime,
      used := false, usedAt := none }
  { st with activeCodes := setA st.activeCodes code d }

/-- `cleanupExpiredToken(token)`: deletes the entry. -/
def cleanupExpiredToken (st : AccessState) (token : String) : AccessState :=
  { st with activeTokens := delA st.activeTokens token }

/-- `cleanupExpiredCode(code)`: deletes the entry. -/
def cleanupExpiredCode (st : AccessState) (code : String) : AccessState :=
  { st with activeCodes := delA st.activeCodes code }

/-- Abbreviation for the state after the granted token branch. -/
def markUsedT (st : AccessState) (token : String) (d : TokenData) (now : Int) :
    AccessState :=
  let d' : TokenData := { d with used := true, usedAt := some now }
  { st with activeTokens := setA st.activeTokens token d' }

/-- Abbreviation for the state after the granted code branch. -/
def markUsedC (st : AccessState) (code : String) (d : TokenData) (now : Int) :
    AccessState :=
  let d' : TokenData := { d with used := true, usedAt := some now }
  { st with activeCodes := setA st.activeCodes code d' }

/-- The operations of `AccessTokenManager`, with their external inputs
(random id string, event fields, the wall clock). -/
inductive TokenOp
  | vToken (token : String) (now : Int)
  | vCode (code : String) (now : Int)
  | genToken (token : String) (eventId : Nat) (s e : Int)
  | genCode (code : String) (eventId : Nat) (s e : Int)
  | cleanupT (token : String)
  | cleanupC (code : String)

/-- Dispatch an operation against the manager state. -/
def applyTokenOp (st : AccessState) : TokenOp → AccessState
  | TokenOp.vToken token now => (validateAccessToken st token now).2
  | TokenOp.vCode code now => (validateAccessCode st code now).2
  | TokenOp.genToken token eventId s e => generateAccessToken st token eventId s e
  | TokenOp.genCode code eventId s e => generateAccessCode st code eventId s e
  | TokenOp.cleanupT token => cleanupExpiredToken st token
  | TokenOp.cleanupC code => cleanupExpiredCode st code

/-- A generation operation draws an id not currently stored (the 32-byte
random token / fresh 6-digit code does not collide with a live entry). -/
def opFresh (st : AccessState) : TokenOp → Prop
  | TokenOp.genToken token _ _ _ => lookupA st.activeTokens token = none
  | TokenOp.genCode code _ _ _ => lookupA st.activeCodes code = none
  | _ => True

/-! ### `src/utils/doorCodeGenerator.js` — `DoorCodeGenerator`

`crypto.randomBytes` is passed in as an oracle `draws : Nat → List Nat`
(bytes for each attempt); the md5 digest prefix used by the fallback is the
oracle `hashVal : Nat` (it stands for
`parseInt(md5(appointmentId + '-' + timestamp).hex.substring(0, 8), 16)`). -/

/-- One entry of `codeHistory`: `{ code, generatedAt, appointmentId }`. -/
structure CodeEntry where
  code : String
  generatedAt : Int
  appointmentId : String
  deriving Repr, DecidableEq

/-- The `DoorCodeGenerator` instance state: the `usedCodes` `Set` (kept in
insertion order, as JS `Set` iteration is) and the `codeHistory` `Map`. -/
structure GenState where
  usedCodes : List String
  codeHistory : List (String × CodeEntry)
  deriving Repr, DecidableEq

/-- `Set.add`: no-op on an existing element, else append. -/
def addSet (l : List String) (x : String) : List String :=
  if l.contains x then l else l ++ [x]

/-- Options of `generateCode` with the source's defaults. -/
structure GenOpts where
  len : Nat := 4
  excludePatterns : List String :=
    ["0000", "1111", "2222", "3333", "4444",
     "5555", "6666", "7777", "8888", "9999"]
  maxAttempts : Nat := 100
  deriving Repr

/-- `generateRandomNumericCode(length)`: digit `i` is
`randomBytes[i % randomBytes.length] % 10`.  The source always calls it
with `ceil(length / 2)` random bytes, so `bytes` is never empty when
`length > 0`; `getD _ 0` is unexercised in that case. -/
def generateRandomNumericCode (length : Nat) (bytes : List Nat) : String :=
  String.mk ((List.range length).map
    (fun i => Char.ofNat (48 + bytes.getD (i % bytes.length) 0 % 10)))

/-- `parseInt` of a digit character, as an integer. -/
def digitVal (c : Char) : Int := (c.toNat : Int) - 48

/-- Scan of adjacent positions: every next digit is the previous one
plus `d`.  Vacuously true on empty and one-character strings, exactly like
the source's `for` loops starting at index 1. -/
def constStepRun (d : Int) : List Char → Bool
  | [] => true
  | [_] => true
  | a :: b :: rest =>
      decide (digitVal b = digitVal a + d) && constStepRun d (b :: rest)

/-- `hasSimplePattern(code)`: sequential ascending (step `+1`) or
sequential descending (step `-1`) — these two checks only. -/
def hasSimplePattern (code : String) : Bool :=
  constStepRun 1 code.data || constStepRun (-1) code.data

/-- From the claim's wording (for comparison with `hasSimplePattern`): a
constant-step arithmetic sequence over all digit positions; step `0` is a
repeated digit, steps `±1` are the monotonic runs. -/
def constantStepSeq (code : String) : Prop :=
  ∃ d : Int, constStepRun d code.data = true

/-- `isCodeSecure(code, excludePatterns)`: not excluded, not recently
used, no simple pattern. -/
def isCodeSecure (st : GenState) (code : String)
    (excludePatterns : List String) : Bool :=
  !excludePatterns.contains code && !st.usedCodes.contains code &&
    !hasSimplePattern code

/-- `cleanupOldCodes()`: when over 1000 tracked codes, keep only the most
recent half (`slice(-keepCount)`); prune history entries older than 24 h. -/
def cleanupOldCodes (st : GenState) (nowMs : Int) : GenState :=
  let used :=
    if 1000 < st.usedCodes.length then
      st.usedCodes.drop (st.usedCodes.length - st.usedCodes.length / 2)
    else st.usedCodes
  let cutoff := nowMs - 24 * 60 * 60 * 1000
  { usedCodes := used
    codeHistory := st.codeHistory.filter (fun e => !decide (e.2.generatedAt < cutoff)) }

/-- The accept branch of `generateCode`: record the code in `codeHistory`
and `usedCodes`, then run `cleanupOldCodes`. -/
def storeCode (st : GenState) (appointmentId code : String) (nowMs : Int) :
    GenState :=
  let e : CodeEntry :=
    { code := code, generatedAt := nowMs, appointmentId := appointmentId }
  cleanupOldCodes
    { usedCodes := addSet st.usedCodes code
      codeHistory := setA st.codeHistory appointmentId e }
    nowMs

/-- The `while (attempts < maxAttempts)` loop of `generateCode`: try the
draw of each attempt in order, accept the first secure one.  `none` means
the loop exhausted its attempts. -/
def genLoop (st : GenState) (appointmentId : String) (opts : GenOpts)
    (draws : Nat → List Nat) (nowMs : Int) :
    Nat → Nat → Option (String × GenState)
  | 0, _ => none
  | fuel + 1, attempt =>
      let code := generateRandomNumericCode opts.len (draws attempt)
      if isCodeSecure st code opts.excludePatterns then
        some (code, storeCode st appointmentId code nowMs)
      else genLoop st appointmentId opts draws nowMs fuel (attempt + 1)

/-- `generateTimeBased(appointmentId)`: `hash prefix % 9000 + 1000`,
returned with no security re-check and without touching any state. -/
def generateTimeBased (hashVal : Nat) : String :=
  toString (hashVal % 9000 + 1000)

/-- `generateCode(appointmentId, options)`: the random loop, then the
time-based fallback. -/
def generateCode (st : GenState) (appointmentId : String) (opts : GenOpts)
    (draws : Nat → List Nat) (hashVal : Nat) (nowMs : Int) :
    String × GenState :=
  match genLoop st appointmentId opts draws nowMs opts.maxAttempts 0 with
  | some r => r
  | none => (generateTimeBased hashVal, st)

/-- `validateCode(code, appointmentId)`: true iff `codeHistory` has an
entry for the appointment whose stored code equals the supplied one. -/
def validateCode (st : GenState) (code appointmentId : String) : Bool :=
  match lookupA st.codeHistory appointmentId with
  | some e => e.code == code
  | none => false

/-- `getCodeForAppointment(appointmentId)`. -/
def getCodeForAppointment (st : GenState) (appointmentId : String) :
    Option CodeEntry :=
  lookupA st.codeHistory appointmentId

/-- The fresh generator state (`new DoorCodeGenerator()`). -/
def GenState.empty : GenState := { usedCodes := [], codeHistory := [] }

/-! ### `src/config/index.js` — session durations and lock duration -/

/-- The hard-coded `config.sessionDurations` table (minus its `default`
entry, which is 30). -/
def sessionDurationsLookup (s : String) : Option Nat :=
  if s = "Ice bath" then some 15
  else if s = "Traditional Sauna" then some 30
  else if s = "Traditional sauna and Ice bath" then some 45
  else if s = "Chill Club: 15-Min Daily Ice Bath Access" then some 15
  else if s = "Communal - Contrast Therapy - Ice Bath & Traditional Sauna" then some 30
  else if s = "Private - Contrast Therapy - Ice Bath & Traditional Sauna" then some 60
  else none

/-- `config.sessionDurations.default`. -/
def sessionDurationsDefault : Nat := 30

/-- `getLockDurationForService(serviceName)`:
`(sessionDurations[serviceName] || sessionDurations.default) + bufferTimeMinutes`.
`buffer` is `config.automation.bufferTimeMinutes` (default 5, overridable
by environment); `none` models an `undefined` lookup key. -/
def getLockDurationForService (buffer : Nat) (serviceName : Option String) : Nat :=
  ((serviceName.bind sessionDurationsLookup).getD sessionDurationsDefault) + buffer

/-! ### `AutomationEngine` (Amelia revision, `src/unnamed/part_011`)

One poll cycle (`processUpcomingAppointments`) over the list the Booking
Source returned, with per-appointment dedup keys id + start-epoch (the
source's string key round-trips to this pair), the per-appointment
`handleBookingAppointment`, and `scheduleAutoLock`.  External call
outcomes are the oracle `AmeliaEnv`; the visible calls are collected in an
effect trace. -/

/-- The fields of an Amelia appointment the engine core reads.
`service` is the service-name string (`mapAppointmentData` sets
`service: apiAppointment.service?.name || ...`). -/
structure Appointment where
  id : Nat
  startUnix : Int
  bookingEnd : Option Int
  service : String
  deriving Repr, DecidableEq

/-- Success (`true`) / thrown-error (`false`) outcomes of the external
calls made while handling one appointment, per appointment id. -/
structure AmeliaEnv where
  confirmationEmailOk : Nat → Bool
  codeNoteOk : Nat → Bool
  processedNoteOk : Nat → Bool
  errorEmailOk : Bool
  draws : Nat → Nat → List Nat
  hashVal : Nat → Nat

/-- Observable external calls of one poll cycle. -/
inductive AmeliaEff
  | codeIssued (appointmentId : Nat) (code : String)
  | confirmationSent (appointmentId : Nat)
  | noteAdded (appointmentId : Nat)
  | timerArmed (appointmentId : Nat) (fireAtMs : Int)
  | errorEmail
  deriving Repr, DecidableEq

/-- Does an effect issue a door code for the given appointment? -/
def isCodeIssuedFor (aid : Nat) : AmeliaEff → Bool
  | AmeliaEff.codeIssued i _ => i == aid
  | _ => false

/-- Does an effect send the confirmation for the given appointment? -/
def isConfirmationFor (aid : Nat) : AmeliaEff → Bool
  | AmeliaEff.confirmationSent i => i == aid
  | _ => false

/-- Does an effect arm a re-lock timer for the given appointment? -/
def isTimerArmedFor (aid : Nat) : AmeliaEff → Bool
  | AmeliaEff.timerArmed i _ => i == aid
  | _ => false

/-- The Amelia `AutomationEngine` state touched by a poll cycle. -/
structure AmeliaState where
  processedAppointments : List (Nat × Int)
  activeLockTimers : List (Nat × Int)
  codeGen : GenState
  deriving Repr, DecidableEq

/-- `scheduleAutoLock`'s scheduled instant:
`lockTime = moment(bookingEnd).add(getLockDurationForService(appointment.service.name), 'minutes')`
and `lockDelayMs = Math.max(lockTime - now, 60000)`, so the timer fires at
`max(lockTime, now + 60000)`.  `appointment.service` is the service-name
string, so `appointment.service.name` is `undefined` and the duration
lookup always falls back to the default session duration. -/
def scheduleAutoLockFireAt (buffer : Nat) (bookingEndMs nowMs : Int) : Int :=
  max (bookingEndMs + (getLockDurationForService buffer none : Int) * 60000)
    (nowMs + 60000)

/-- `scheduleAutoLock(appointment)`: skip when `bookingEnd` is missing,
else register the timer under `appointment.id`. -/
def scheduleAutoLock (buffer : Nat) (st : AmeliaState) (a : Appointment)
    (nowMs : Int) : AmeliaState × List AmeliaEff :=
  match a.bookingEnd with
  | none => (st, [])
  | some endMs =>
      let fireAt := scheduleAutoLockFireAt buffer endMs nowMs
      ({ st with activeLockTimers := setA st.activeLockTimers a.id fireAt },
       [AmeliaEff.timerArmed a.id fireAt])

/-- `sendBookingConfirmation(appointment)`: generate the door code (always
succeeds), then the confirmation email, then the code note; a thrown email
or note error is caught inside this method and swallowed, so it never
propagates. -/
def sendBookingConfirmation (env : AmeliaEnv) (st : AmeliaState)
    (a : Appointment) (nowMs : Int) : AmeliaState × List AmeliaEff :=
  let r := generateCode st.codeGen (toString a.id) { len := 4 }
    (env.draws a.id) (env.hashVal a.id) nowMs
  let st' := { st with codeGen := r.2 }
  let effs := [AmeliaEff.codeIssued a.id r.1]
  if env.confirmationEmailOk a.id then
    if env.codeNoteOk a.id then
      (st', effs ++ [AmeliaEff.confirmationSent a.id, AmeliaEff.noteAdded a.id])
    else
      (st', effs ++ [AmeliaEff.confirmationSent a.id])
  else
    (st', effs)

/-- `handleBookingAppointment(appointment)`: confirmation (with code),
auto-lock scheduling, then the processed note.  A thrown note error is
caught, a best-effort error email sent, and the error is RE-THROWN; the
`Bool` is `false` exactly when the method throws to its caller. -/
def handleBookingAppointment (buffer : Nat) (env : AmeliaEnv)
    (st : AmeliaState) (a : Appointment) (nowMs : Int) :
    AmeliaState × List AmeliaEff × Bool :=
  let r1 := sendBookingConfirmation env st a nowMs
  let r2 := scheduleAutoLock buffer r1.1 a nowMs
  if env.processedNoteOk a.id then
    (r2.1, r1.2 ++ r2.2 ++ [AmeliaEff.noteAdded a.id], true)
  else
    (r2.1,
     r1.2 ++ r2.2 ++ (if env.errorEmailOk then [AmeliaEff.errorEmail] else []),
     false)

/-- `cleanupProcessedAppointments()`: drop dedup keys whose embedded start
epoch is older than 24 hours. -/
def cleanupProcessedKeys (keys : List (Nat × Int)) (nowSec : Int) :
    List (Nat × Int) :=
  keys.filter (fun k => !decide (k.2 < nowSec - 24 * 3600))

/-- The `for` loop of `processUpcomingAppointments`: skip appointments
whose dedup key is present; otherwise handle, add the key and clean up —
but an error re-thrown by `handleBookingAppointment` escapes the loop
(the key is NOT added) and lands in the cycle's outer `catch`, which
attempts one more error email and returns. -/
def processAppointmentsList (buffer : Nat) (env : AmeliaEnv)
    (st : AmeliaState) (nowMs nowSec : Int) :
    List Appointment → AmeliaState × List AmeliaEff
  | [] => (st, [])
  | a :: rest =>
      if (a.id, a.startUnix) ∈ st.processedAppointments then
        processAppointmentsList buffer env st nowMs nowSec rest
      else
        let r := handleBookingAppointment buffer env st a nowMs
        if r.2.2 then
          let keys := cleanupProcessedKeys
            (r.1.processedAppointments ++ [(a.id, a.startUnix)]) nowSec
          let st2 := { r.1 with processedAppointments := keys }
          let rr := processAppointmentsList buffer env st2 nowMs nowSec rest
          (rr.1, r.2.1 ++ rr.2)
        else
          (r.1,
           r.2.1 ++ (if env.errorEmailOk then [AmeliaEff.errorEmail] else []))

/-- One poll cycle, `processUpcomingAppointments()`, on the appointment
list the Booking Source returned. -/
def processUpcomingAppointments (buffer : Nat) (env : AmeliaEnv)
    (st : AmeliaState) (nowMs nowSec : Int) (appointments : List Appointment) :
    AmeliaState × List AmeliaEff :=
  processAppointmentsList buffer env st nowMs nowSec appointments

/-! ### `AutomationEngine` (calendar revision, `src/services/automationEngine.js`)

`processUpcomingEvents` — no dedup keys; `handleBookingEvent` catches a
thrown unlock/processing error, attempts an error email, and does NOT
re-throw, so the `for` loop always reaches every event. -/

/-- A calendar event together with the collaborator verdict
`calendarService.isValidBookingEvent(event)`. -/
structure CalEvent where
  id : Nat
  valid : Bool
  deriving Repr, DecidableEq

/-- External outcomes for the calendar engine. -/
structure CalEnv where
  unlockOk : Nat → Bool
  emailOk : Nat → Bool
  errorEmailOk : Bool

/-- Observable external calls of a calendar poll cycle. -/
inductive CalEff
  | unlockCalled (id : Nat)
  | confirmationSent (id : Nat)
  | timerArmed (id : Nat) (fireAtMs : Int)
  | errorEmail
  | skippedInvalid (id : Nat)
  deriving Repr, DecidableEq

/-- Calendar engine state touched by a poll cycle. -/
structure CalState where
  activeLockTimers : List (Nat × Int)
  deriving Repr, DecidableEq

/-- `scheduleAutoLock(event)` (calendar revision): disabled when the
configured duration is 0; else the timer fires `lockDurationMinutes`
after the processing instant (clearing any existing timer for the id). -/
def calScheduleAutoLock (lockDurationMinutes : Nat) (st : CalState)
    (id : Nat) (nowMs : Int) : CalState × List CalEff :=
  if lockDurationMinutes = 0 then (st, [])
  else
    let fireAt := nowMs + (lockDurationMinutes : Int) * 60000
    ({ st with activeLockTimers := setA st.activeLockTimers id fireAt },
     [CalEff.timerArmed id fireAt])

/-- `handleBookingEvent(event)`: unlock, confirmation email (failure
swallowed), auto-lock.  A thrown unlock error is caught HERE: an error
email is attempted and the method returns normally — nothing re-thrown. -/
def handleBookingEvent (lockDurationMinutes : Nat) (env : CalEnv)
    (st : CalState) (e : CalEvent) (nowMs : Int) : CalState × List CalEff :=
  if env.unlockOk e.id then
    let effs :=
      [CalEff.unlockCalled e.id] ++
        (if env.emailOk e.id then [CalEff.confirmationSent e.id] else [])
    let r := calScheduleAutoLock lockDurationMinutes st e.id nowMs
    (r.1, effs ++ r.2)
  else
    (st, [CalEff.unlockCalled e.id] ++
      (if env.errorEmailOk then [CalEff.errorEmail] else []))

/-- The `for` loop of `processUpcomingEvents`. -/
def processUpcomingEvents (lockDurationMinutes : Nat) (env : CalEnv)
    (st : CalState) (nowMs : Int) : List CalEvent → CalState × List CalEff
  | [] => (st, [])
  | e :: rest =>
      let r :=
        if e.valid then handleBookingEvent lockDurationMinutes env st e nowMs
        else (st, [CalEff.skippedInvalid e.id])
      let rr := processUpcomingEvents lockDurationMinutes env r.1 nowMs rest
      (rr.1, r.2 ++ rr.2)

/-! ### Engine lifecycle: `initialize()` / `start()` in both revisions -/

/-- The lifecycle flags of an engine instance. -/
structure EngineLifecycle where
  isRunning : Bool
  isInitialized : Bool
  cronConfigured : Bool
  cronStarted : Bool
  deriving Repr, DecidableEq

/-- A freshly constructed engine. -/
def freshEngine : EngineLifecycle :=
  { isRunning := false, isInitialized := false,
    cronConfigured := false, cronStarted := false }

/-- Calendar revision `initialize()` (success path): services initialized,
`setupScheduledTasks()` creates the three cron jobs with
`scheduled: false`, and then `this.isRunning = true`. -/
def calInitialize (s : EngineLifecycle) : EngineLifecycle :=
  { s with cronConfigured := true, isRunning := true }

/-- Calendar revision `start()`: returns immediately if `isRunning`,
else starts every cron job and sets `isRunning`. -/
def calStart (s : EngineLifecycle) : EngineLifecycle :=
  if s.isRunning then s
  else { s with cronStarted := true, isRunning := true }

/-- Amelia revision `initialize()` (success path): services initialized,
cron jobs created unstarted, `this.isInitialized = true`
(`isRunning` untouched). -/
def ameliaInitialize (s : EngineLifecycle) : EngineLifecycle :=
  { s with cronConfigured := true, isInitialized := true }

/-- Amelia revision `start()`: returns immediately if `isRunning`, else
starts every cron job and sets `isRunning`. -/
def ameliaStart (s : EngineLifecycle) : EngineLifecycle :=
  if s.isRunning then s
  else { s with cronStarted := true, isRunning := true }

/-! ### Re-lock timers and `stop()` (`src/unnamed/part_011`)

`setTimeout` / `clearTimeout` semantics made explicit: every
`scheduleAutoLock` creates a fresh timer instance; a timer's callback runs
(calling `eufyService.lockDoor()` and deleting the `activeLockTimers`
entry of its appointment) only if the instance was neither cleared nor
already run; `stop()` calls `clearTimeout` on precisely the instances
currently tracked in `activeLockTimers` and clears that map. -/

/-- One `setTimeout` instance created by `scheduleAutoLock`. -/
structure TimerRec where
  tid : Nat
  aid : Nat
  fireAt : Int
  cancelled : Bool
  fired : Bool
  deriving Repr, DecidableEq

/-- Timer subsystem state: all instances ever created, the
`activeLockTimers` map (appointment id ↦ tracked instance), and the
freshness counter. -/
structure TimerSys where
  timers : List TimerRec
  activeLockTimers : List (Nat × Nat)
  nextTid : Nat
  deriving Repr, DecidableEq

/-- Events the timer subsystem reacts to. -/
inductive TEvent
  | armTimer (aid : Nat) (fireAt : Int)
  | timerRan (tid : Nat)
  | engineStop
  deriving Repr, DecidableEq

/-- First instance with the given id. -/
def findTimer (l : List TimerRec) (tid : Nat) : Option TimerRec :=
  l.find? (fun r => r.tid == tid)

/-- One step; emits the list of `lockDoor()` calls (by timer instance). -/
def tstep (s : TimerSys) : TEvent → TimerSys × List Nat
  | TEvent.armTimer aid fireAt =>
      let r : TimerRec :=
        { tid := s.nextTid, aid := aid, fireAt := fireAt,
          cancelled := false, fired := false }
      ({ timers := s.timers ++ [r],
         activeLockTimers := setA s.activeLockTimers aid s.nextTid,
         nextTid := s.nextTid + 1 }, [])
  | TEvent.timerRan tid =>
      match findTimer s.timers tid with
      | some r =>
          if r.cancelled || r.fired then (s, [])
          else
            ({ s with
                timers := s.timers.map
                  (fun r' => if r'.tid == tid then { r' with fired := true } else r')
                activeLockTimers := delA s.activeLockTimers r.aid }, [tid])
      | none => (s, [])
  | TEvent.engineStop =>
      ({ s with
          timers := s.timers.map
            (fun r => if lookupA s.activeLockTimers r.aid == some r.tid then
              { r with cancelled := true } else r)
          activeLockTimers := [] }, [])

/-- Run a sequence of events, collecting all emitted `lockDoor()` calls. -/
def trun (s : TimerSys) : List TEvent → TimerSys × List Nat
  | [] => (s, [])
  | ev :: evs =>
      let r := tstep s ev
      let rr := trun r.1 evs
      (rr.1, r.2 ++ rr.2)

/-- A timer instance currently marked cancelled (its `clearTimeout` has
run, so its callback can never run). -/
def cancelledAt (s : TimerSys) (tid : Nat) : Prop :=
  ∃ r, findTimer s.timers tid = some r ∧ r.cancelled = true

/-! ## Lemmas about the map model -/

theorem lookupA_setA_self {κ ν : Type} [DecidableEq κ]
    (l : List (κ × ν)) (k : κ) (v : ν) : lookupA (setA l k v) k = some v := by
  induction l with
  | nil => simp [setA, lookupA]
  | cons hd tl ih =>
      obtain ⟨k', v'⟩ := hd
      by_cases h : k' = k
      · simp [setA, lookupA, h]
      · simp [setA, lookupA, h, ih]

theorem lookupA_setA_other {κ ν : Type} [DecidableEq κ]
    (l : List (κ × ν)) (k k' : κ) (v : ν) (h : k' ≠ k) :
    lookupA (setA l k v) k' = lookupA l k' := by
  have hk : k ≠ k' := fun h' => h h'.symm
  induction l with
  | nil => simp [setA, lookupA, hk]
  | cons hd tl ih =>
      obtain ⟨k₀, v₀⟩ := hd
      by_cases h0 : k₀ = k
      · subst h0
        simp [setA, lookupA, hk]
      · by_cases h1 : k₀ = k'
        · subst h1
          simp [setA, lookupA, h, h0]
        · simp [setA, lookupA, h0, h1, ih]

theorem lookupA_filter {κ ν : Type} [DecidableEq κ]
    (l : List (κ × ν)) (p : κ × ν → Bool) (k : κ) (v : ν)
    (hl : lookupA l k = some v) (hp : p (k, v) = true) :
    lookupA (l.filter p) k = some v := by
  induction l with
  | nil => simp [lookupA] at hl
  | cons hd tl ih =>
      obtain ⟨k₀, v₀⟩ := hd
      by_cases h0 : k₀ = k
      · subst h0
        simp [lookupA] at hl
        subst hl
        simp [List.filter, hp, lookupA]
      · simp [lookupA, h0] at hl
        rcases hph : p (k₀, v₀) with _ | _
        · simp [List.filter, hph]
          exact ih hl
        · simp [List.filter, hph, lookupA, h0]
          exact ih hl

theorem lookupA_delA_other {κ ν : Type} [DecidableEq κ]
    (l : List (κ × ν)) (k k' : κ) (v : ν) (h : k' ≠ k)
    (hl : lookupA l k' = some v) : lookupA (delA l k) k' = some v := by
  have hk : k ≠ k' := fun h' => h h'.symm
  induction l with
  | nil => simp [lookupA] at hl
  | cons hd tl ih =>
      obtain ⟨k₀, v₀⟩ := hd
      by_cases h0 : k₀ = k
      · subst h0
        simp [lookupA, hk] at hl
        simp [delA, hl]
      · by_cases h1 : k₀ = k'
        · subst h1
          simp [lookupA] at hl
          simp [delA, h0, lookupA, hl]
        · simp [lookupA, h1] at hl
          simp [delA, h0, lookupA, h1]
          exact ih hl

/-! ## Behaviour of `validateAccessToken` / `validateAccessCode` -/

/-- Granted branch of the token path. -/
theorem validateAccessToken_grant (st : AccessState) (token : String)
    (d : TokenData) (now : Int)
    (hl : lookupA st.activeTokens token = some d) (hu : d.used = false)
    (h1 : d.startTime - 15 * 60000 ≤ now) (h2 : now ≤ d.endTime + 30 * 60000) :
    validateAccessToken st token now =
      ({ valid := true, reason := "Access granted",
         eventData := some { d with used := true, usedAt := some now } },
       markUsedT st token d now) := by
  simp only [validateAccessToken, hl]
  rw [if_neg (by simp [hu]), if_neg (not_lt.mpr h1), if_neg (not_lt.mpr h2)]
  rfl

/-- Used branch of the token path: denied at every time, state untouched. -/
theorem validateAccessToken_used (st : AccessState) (token : String)
    (d : TokenData) (now : Int)
    (hl : lookupA st.activeTokens token = some d) (hu : d.used = true) :
    validateAccessToken st token now =
      ({ valid := false, reason := "Token already used", eventData := none }, st) := by
  simp only [validateAccessToken, hl]
  rw [if_pos hu]

/-- Too-early branch of the token path. -/
theorem validateAccessToken_early (st : AccessState) (token : String)
    (d : TokenData) (now : Int)
    (hl : lookupA st.activeTokens token = some d) (hu : d.used = false)
    (h1 : now < d.startTime - 15 * 60000) :
    validateAccessToken st token now =
      ({ valid := false,
         reason := "Too early - access starts at " ++ formatHHMM (d.startTime - 15 * 60000),
         eventData := none }, st) := by
  simp only [validateAccessToken, hl]
  rw [if_neg (by simp [hu]), if_pos h1]

/-- Expired branch of the token path. -/
theorem validateAccessToken_late (st : AccessState) (token : String)
    (d : TokenData) (now : Int)
    (hl : lookupA st.activeTokens token = some d) (hu : d.used = false)
    (h1 : d.startTime - 15 * 60000 ≤ now) (h2 : d.endTime + 30 * 60000 < now) :
    validateAccessToken st token now =
      ({ valid := false, reason := "Token expired", eventData := none }, st) := by
  simp only [validateAccessToken, hl]
  rw [if_neg (by simp [hu]), if_neg (not_lt.mpr h1), if_pos h2]

/-- Granted branch of the code path. -/
theorem validateAccessCode_grant (st : AccessState) (code : String)
    (d : TokenData) (now : Int)
    (hl : lookupA st.activeCodes code = some d) (hu : d.used = false)
    (h1 : d.startTime - 15 * 60000 ≤ now) (h2 : now ≤ d.endTime + 30 * 60000) :
    validateAccessCode st code now =
      ({ valid := true, reason := "Access granted",
         eventData := some { d with used := true, usedAt := some now } },
       markUsedC st code d now) := by
  simp only [validateAccessCode, hl]
  rw [if_neg (by simp [hu]),
    if_neg (by rw [not_or]; exact ⟨not_lt.mpr h1, not_lt.mpr h2⟩)]
  rfl

/-- Used branch of the code path. -/
theorem validateAccessCode_used (st : AccessState) (code : String)
    (d : TokenData) (now : Int)
    (hl : lookupA st.activeCodes code = some d) (hu : d.used = true) :
    validateAccessCode st code now =
      ({ valid := false, reason := "Code already used", eventData := none }, st) := by
  simp only [validateAccessCode, hl]
  rw [if_pos hu]

/-- Outside-window branch of the code path: one combined denial. -/
theorem validateAccessCode_outside (st : AccessState) (code : String)
    (d : TokenData) (now : Int)
    (hl : lookupA st.activeCodes code = some d) (hu : d.used = false)
    (h : now < d.startTime - 15 * 60000 ∨ d.endTime + 30 * 60000 < now) :
    validateAccessCode st code now =
      ({ valid := false, reason := "Code not valid at this time", eventData := none }, st) := by
  simp only [validateAccessCode, hl]
  rw [if_neg (by simp [hu]), if_pos h]

theorem lookupA_eq_none_of_not_mem {κ ν : Type} [DecidableEq κ]
    (l : List (κ × ν)) (k : κ) (h : k ∉ l.map Prod.fst) : lookupA l k = none := by
  induction l with
  | nil => rfl
  | cons hd tl ih =>
      obtain ⟨k₀, v₀⟩ := hd
      simp only [List.map_cons, List.mem_cons] at h
      push_neg at h
      have hk : ¬ k₀ = k := fun hh => h.1 hh.symm
      simp [lookupA, hk, ih h.2]

theorem lookupA_delA_self {κ ν : Type} [DecidableEq κ]
    (l : List (κ × ν)) (k : κ) (h : (l.map Prod.fst).Nodup) :
    lookupA (delA l k) k = none := by
  induction l with
  | nil => rfl
  | cons hd tl ih =>
      obtain ⟨k₀, v₀⟩ := hd
      simp only [List.map_cons, List.nodup_cons] at h
      by_cases h0 : k₀ = k
      · subst h0
        simp only [delA, if_pos rfl]
        exact lookupA_eq_none_of_not_mem tl k₀ h.1
      · simp [delA, h0, lookupA, h0, ih h.2]

/-- After any single `validateAccessToken` call the state is either
untouched or is the granted-branch update of an unused entry. -/
theorem validateAccessToken_state_shape (st : AccessState) (token : String)
    (now : Int) :
    (validateAccessToken st token now).2 = st ∨
    ∃ dt, lookupA st.activeTokens token = some dt ∧ dt.used = false ∧
      (validateAccessToken st token now).2 = markUsedT st token dt now := by
  rcases hm : lookupA st.activeTokens token with _ | dt
  · left
    simp [validateAccessToken, hm]
  · by_cases hdu : dt.used = true
    · left
      rw [validateAccessToken_used st token dt now hm hdu]
    · have hdu' : dt.used = false := by
        cases hb : dt.used
        · rfl
        · exact absurd hb hdu
      by_cases hA : now < dt.startTime - 15 * 60000
      · left
        rw [validateAccessToken_early st token dt now hm hdu' hA]
      · by_cases hB : dt.endTime + 30 * 60000 < now
        · left
          rw [validateAccessToken_late st token dt now hm hdu' (not_lt.mp hA) hB]
        · right
          refine ⟨dt, by simp [hm], hdu', ?_⟩
          rw [validateAccessToken_grant st token dt now hm hdu' (not_lt.mp hA)
            (not_lt.mp hB)]

/-- After any single `validateAccessCode` call the state is either
untouched or is the granted-branch update of an unused entry. -/
theorem validateAccessCode_state_shape (st : AccessState) (code : String)
    (now : Int) :
    (validateAccessCode st code now).2 = st ∨
    ∃ dt, lookupA st.activeCodes code = some dt ∧ dt.used = false ∧
      (validateAccessCode st code now).2 = markUsedC st code dt now := by
  rcases hm : lookupA st.activeCodes code with _ | dt
  · left
    simp [validateAccessCode, hm]
  · by_cases hdu : dt.used = true
    · left
      rw [validateAccessCode_used st code dt now hm hdu]
    · have hdu' : dt.used = false := by
        cases hb : dt.used
        · rfl
        · exact absurd hb hdu
      by_cases hW : now < dt.startTime - 15 * 60000 ∨ dt.endTime + 30 * 60000 < now
      · left
        rw [validateAccessCode_outside st code dt now hm hdu' hW]
      · right
        push_neg at hW
        refine ⟨dt, by simp [hm], hdu', ?_⟩
        rw [validateAccessCode_grant st code dt now hm hdu' hW.1 hW.2]

/-- A `used = true` entry stays `used = true` across every manager
operation (generation under a non-colliding fresh id). -/
theorem tokenOp_used_mono (st : AccessState) (op : TokenOp) (hf : opFresh st op)
    (hnd : (st.activeTokens.map Prod.fst).Nodup ∧ (st.activeCodes.map Prod.fst).Nodup)
    (id : String) (d d' : TokenData) :
    (lookupA st.activeTokens id = some d →
      lookupA (applyTokenOp st op).activeTokens id = some d' →
      d.used = true → d'.used = true) ∧
    (lookupA st.activeCodes id = some d →
      lookupA (applyTokenOp st op).activeCodes id = some d' →
      d.used = true → d'.used = true) := by
  cases op with
  | vToken token now =>
      rcases validateAccessToken_state_shape st token now with hsh | ⟨dt, hm, hdu, hsh⟩
      · constructor
        · intro h1 h2 h3
          rw [show applyTokenOp st (TokenOp.vToken token now) =
            (validateAccessToken st token now).2 from rfl, hsh, h1] at h2
          cases h2
          exact h3
        · intro h1 h2 h3
          rw [show applyTokenOp st (TokenOp.vToken token now) =
            (validateAccessToken st token now).2 from rfl, hsh, h1] at h2
          cases h2
          exact h3
      · constructor
        · intro h1 h2 h3
          rw [show applyTokenOp st (TokenOp.vToken token now) =
            (validateAccessToken st token now).2 from rfl, hsh] at h2
          by_cases hid : id = token
          · subst hid
            rw [show (markUsedT st id dt now).activeTokens =
              setA st.activeTokens id { dt with used := true, usedAt := some now }
              from rfl, lookupA_setA_self] at h2
            cases h2
            rfl
          · rw [show (markUsedT st token dt now).activeTokens =
              setA st.activeTokens token { dt with used := true, usedAt := some now }
              from rfl, lookupA_setA_other _ _ _ _ hid, h1] at h2
            cases h2
            exact h3
        · intro h1 h2 h3
          rw [show applyTokenOp st (TokenOp.vToken token now) =
            (validateAccessToken st token now).2 from rfl, hsh,
            show (markUsedT st token dt now).activeCodes = st.activeCodes from rfl,
            h1] at h2
          cases h2
          exact h3
  | vCode code now =>
      rcases validateAccessCode_state_shape st code now with hsh | ⟨dt, hm, hdu, hsh⟩
      · constructor
        · intro h1 h2 h3
          rw [show applyTokenOp st (TokenOp.vCode code now) =
            (validateAccessCode st code now).2 from rfl, hsh, h1] at h2
          cases h2
          exact h3
        · intro h1 h2 h3
          rw [show applyTokenOp st (TokenOp.vCode code now) =
            (validateAccessCode st code now).2 from rfl, hsh, h1] at h2
          cases h2
          exact h3
      · constructor
        · intro h1 h2 h3
          rw [show applyTokenOp st (TokenOp.vCode code now) =
            (validateAccessCode st code now).2 from rfl, hsh,
            show (markUsedC st code dt now).activeTokens = st.activeTokens from rfl,
            h1] at h2
          cases h2
          exact h3
        · intro h1 h2 h3
          rw [show applyTokenOp st (TokenOp.vCode code now) =
            (validateAccessCode st code now).2 from rfl, hsh] at h2
          by_cases hid : id = code
          · subst hid
            rw [show (markUsedC st id dt now).activeCodes =
              setA st.activeCodes id { dt with used := true, usedAt := some now }
              from rfl, lookupA_setA_self] at h2
            cases h2
            rfl
          · rw [show (markUsedC st code dt now).activeCodes =
              setA st.activeCodes code { dt with used := true, usedAt := some now }
              from rfl, lookupA_setA_other _ _ _ _ hid, h1] at h2
            cases h2
            exact h3
  | genToken token eventId s e =>
      constructor
      · intro h1 h2 h3
        by_cases hid : id = token
        · subst hid
          rw [hf] at h1
          cases h1
        · rw [show (applyTokenOp st (TokenOp.genToken token eventId s e)).activeTokens =
            setA st.activeTokens token _ from rfl,
            lookupA_setA_other _ _ _ _ hid, h1] at h2
          cases h2
          exact h3
      · intro h1 h2 h3
        rw [show (applyTokenOp st (TokenOp.genToken token eventId s e)).activeCodes =
          st.activeCodes from rfl, h1] at h2
        cases h2
        exact h3
  | genCode code eventId s e =>
      constructor
      · intro h1 h2 h3
        rw [show (applyTokenOp st (TokenOp.genCode code eventId s e)).activeTokens =
          st.activeTokens from rfl, h1] at h2
        cases h2
        exact h3
      · intro h1 h2 h3
        by_cases hid : id = code
        · subst hid
          rw [hf] at h1
          cases h1
        · rw [show (applyTokenOp st (TokenOp.genCode code eventId s e)).activeCodes =
            setA st.activeCodes code _ from rfl,
            lookupA_setA_other _ _ _ _ hid, h1] at h2
          cases h2
          exact h3
  | cleanupT token =>
      constructor
      · intro h1 h2 h3
        by_cases hid : id = token
        · subst hid
          rw [show (applyTokenOp st (TokenOp.cleanupT id)).activeTokens =
            delA st.activeTokens id from rfl, lookupA_delA_self _ _ hnd.1] at h2
          cases h2
        · rw [show (applyTokenOp st (TokenOp.cleanupT token)).activeTokens =
            delA st.activeTokens token from rfl,
            lookupA_delA_other _ _ _ _ hid h1] at h2
          cases h2
          exact h3
      · intro h1 h2 h3
        rw [show (applyTokenOp st (TokenOp.cleanupT token)).activeCodes =
          st.activeCodes from rfl, h1] at h2
        cases h2
        exact h3
  | cleanupC code =>
      constructor
      · intro h1 h2 h3
        rw [show (applyTokenOp st (TokenOp.cleanupC code)).activeTokens =
          st.activeTokens from rfl, h1] at h2
        cases h2
        exact h3
      · intro h1 h2 h3
        by_cases hid : id = code
        · subst hid
          rw [show (applyTokenOp st (TokenOp.cleanupC id)).activeCodes =
            delA st.activeCodes id from rfl, lookupA_delA_self _ _ hnd.2] at h2
          cases h2
        · rw [show (applyTokenOp st (TokenOp.cleanupC code)).activeCodes =
            delA st.activeCodes code from rfl,
            lookupA_delA_other _ _ _ _ hid h1] at h2
          cases h2
          exact h3

/-! ## Claim theorems -/

/-- **C1**: the first presentation of a stored, unused credential inside
its validity window is granted and sets `used := true`; every subsequent
presentation of the same credential id is denied with the already-used
reason at every later time (the `used` check precedes the time-window
checks); and no operation of the manager ever resets a `used = true` flag
back to `false` (generation draws a fresh id; the map keys are unique, as
JS `Map` keys are). -/
theorem c1_credential_single_use :
    (∀ (st : AccessState) (token : String) (d : TokenData) (now later : Int),
      lookupA st.activeTokens token = some d → d.used = false →
      d.startTime - 15 * 60000 ≤ now → now ≤ d.endTime + 30 * 60000 →
      (validateAccessToken st token now).1.valid = true ∧
      lookupA (validateAccessToken st token now).2.activeTokens token =
        some { d with used := true, usedAt := some now } ∧
      (validateAccessToken (validateAccessToken st token now).2 token later).1 =
        { valid := false, reason := "Token already used", eventData := none }) ∧
    (∀ (st : AccessState) (token : String) (d : TokenData) (now : Int),
      lookupA st.activeTokens token = some d → d.used = true →
      validateAccessToken st token now =
        ({ valid := false, reason := "Token already used", eventData := none }, st)) ∧
    (∀ (st : AccessState) (code : String) (d : TokenData) (now later : Int),
      lookupA st.activeCodes code = some d → d.used = false →
      d.startTime - 15 * 60000 ≤ now → now ≤ d.endTime + 30 * 60000 →
      (validateAccessCode st code now).1.valid = true ∧
      lookupA (validateAccessCode st code now).2.activeCodes code =
        some { d with used := true, usedAt := some now } ∧
      (validateAccessCode (validateAccessCode st code now).2 code later).1 =
        { valid := false, reason := "Code already used", eventData := none }) ∧
    (∀ (st : AccessState) (code : String) (d : TokenData) (now : Int),
      lookupA st.activeCodes code = some d → d.used = true →
      validateAccessCode st code now =
        ({ valid := false, reason := "Code already used", eventData := none }, st)) ∧
    (∀ (st : AccessState) (op : TokenOp), opFresh st op →
      (st.activeTokens.map Prod.fst).Nodup → (st.activeCodes.map Prod.fst).Nodup →
      ∀ (id : String) (d d' : TokenData),
        (lookupA st.activeTokens id = some d →
          lookupA (applyTokenOp st op).activeTokens id = some d' →
          d.used = true → d'.used = true) ∧
        (lookupA st.activeCodes id = some d →
          lookupA (applyTokenOp st op).activeCodes id = some d' →
          d.used = true → d'.used = true)) := by
  refine ⟨?_, ?_, ?_, ?_, ?_⟩
  · intro st token d now later hl hu h1 h2
    rw [validateAccessToken_grant st token d now hl hu h1 h2]
    refine ⟨rfl, ?_, ?_⟩
    · rw [show (markUsedT st token d now).activeTokens =
        setA st.activeTokens token { d with used := true, usedAt := some now }
        from rfl, lookupA_setA_self]
    · have hl' : lookupA (markUsedT st token d now).activeTokens token =
          some { d with used := true, usedAt := some now } := by
        rw [show (markUsedT st token d now).activeTokens =
          setA st.activeTokens token { d with used := true, usedAt := some now }
          from rfl, lookupA_setA_self]
      rw [validateAccessToken_used (markUsedT st token d now) token _ later hl' rfl]
  · intro st token d now hl hu
    exact validateAccessToken_used st token d now hl hu
  · intro st code d now later hl hu h1 h2
    rw [validateAccessCode_grant st code d now hl hu h1 h2]
    refine ⟨rfl, ?_, ?_⟩
    · rw [show (markUsedC st code d now).activeCodes =
        setA st.activeCodes code { d with used := true, usedAt := some now }
        from rfl, lookupA_setA_self]
    · have hl' : lookupA (markUsedC st code d now).activeCodes code =
          some { d with used := true, usedAt := some now } := by
        rw [show (markUsedC st code d now).activeCodes =
          setA st.activeCodes code { d with used := true, usedAt := some now }
          from rfl, lookupA_setA_self]
      rw [validateAccessCode_used (markUsedC st code d now) code _ later hl' rfl]
  · intro st code d now hl hu
    exact validateAccessCode_used st code d now hl hu
  · intro st op hf hnd1 hnd2 id d d'
    exact tokenOp_used_mono st op hf ⟨hnd1, hnd2⟩ id d d'

/-- Witness for C1 at a concrete credential: a token stored for the window
around `[10^6, 2·10^6]` ms, presented at `now = 10^6` and again at
`later = 10^9`. -/
theorem c1_credential_single_use_witness :
    (validateAccessToken
        { activeTokens :=
            [("t", { eventId := 7, startTime := 1000000, endTime := 2000000,
                     used := false, usedAt := none })],
          activeCodes := [] } "t" 1000000).1.valid = true ∧
    lookupA (validateAccessToken
        { activeTokens :=
            [("t", { eventId := 7, startTime := 1000000, endTime := 2000000,
                     used := false, usedAt := none })],
          activeCodes := [] } "t" 1000000).2.activeTokens "t" =
      some { eventId := 7, startTime := 1000000, endTime := 2000000,
             used := true, usedAt := some 1000000 } ∧
    (validateAccessToken (validateAccessToken
        { activeTokens :=
            [("t", { eventId := 7, startTime := 1000000, endTime := 2000000,
                     used := false, usedAt := none })],
          activeCodes := [] } "t" 1000000).2 "t" 1000000000).1 =
      { valid := false, reason := "Token already used", eventData := none } :=
  c1_credential_single_use.1
    { activeTokens :=
        [("t", { eventId := 7, startTime := 1000000, endTime := 2000000,
                 used := false, usedAt := none })],
      activeCodes := [] } "t"
    { eventId := 7, startTime := 1000000, endTime := 2000000,
      used := false, usedAt := none } 1000000 1000000000
    (by rfl) (by rfl) (by decide) (by decide)

/-- **C2 counterexample**: a stored, unused 6-digit code credential with
window `[start − 15 min, end + 30 min] = [2700000, 9000000]` ms, presented
strictly before the window (`now = 0`) and strictly after it
(`now = 99999999`): both denials carry the SAME reason string
`"Code not valid at this time"`, which is not a too-early reason and not
an expired reason — the code path does not distinguish the two cases the
claim requires. -/
theorem c2_code_reason_counterexample :
    (validateAccessCode
        { activeTokens := [],
          activeCodes :=
            [("123456", { eventId := 7, startTime := 3600000, endTime := 7200000,
                          used := false, usedAt := none })] } "123456" 0).1.reason =
      "Code not valid at this time" ∧
    (validateAccessCode
        { activeTokens := [],
          activeCodes :=
            [("123456", { eventId := 7, startTime := 3600000, endTime := 7200000,
                          used := false, usedAt := none })] } "123456" 99999999).1.reason =
      "Code not valid at this time" ∧
    ((0 : Int) < 3600000 - 15 * 60000 ∧ 7200000 + 30 * 60000 < 99999999) ∧
    "Code not valid at this time" ≠
      "Too early - access starts at " ++ formatHHMM (3600000 - 15 * 60000) ∧
    "Code not valid at this time" ≠ "Token expired" := by
  refine ⟨?_, ?_, by decide, by decide, by decide⟩
  · rw [validateAccessCode_outside _ _
      { eventId := 7, startTime := 3600000, endTime := 7200000,
        used := false, usedAt := none } 0 (by rfl) rfl (Or.inl (by decide))]
  · rw [validateAccessCode_outside _ _
      { eventId := 7, startTime := 3600000, endTime := 7200000,
        used := false, usedAt := none } 99999999 (by rfl) rfl (Or.inr (by decide))]

/-- **C2 (amended)**: presenting an unused stored credential outside its
window is denied and leaves the entire manager state unchanged (so `used`
stays `false` and no other credential is touched).  The reasons are: for
tokens, the distinct strings "Too early - access starts at HH:mm" and
"Token expired"; for codes, the single combined string
"Code not valid at this time" on both sides of the window. -/
theorem c2_outside_window_amended :
    (∀ (st : AccessState) (token : String) (d : TokenData) (now : Int),
      lookupA st.activeTokens token = some d → d.used = false →
      now < d.startTime - 15 * 60000 →
      validateAccessToken st token now =
        ({ valid := false,
           reason := "Too early - access starts at " ++
             formatHHMM (d.startTime - 15 * 60000),
           eventData := none }, st)) ∧
    (∀ (st : AccessState) (token : String) (d : TokenData) (now : Int),
      lookupA st.activeTokens token = some d → d.used = false →
      d.startTime - 15 * 60000 ≤ now → d.endTime + 30 * 60000 < now →
      validateAccessToken st token now =
        ({ valid := false, reason := "Token expired", eventData := none }, st)) ∧
    (∀ (st : AccessState) (code : String) (d : TokenData) (now : Int),
      lookupA st.activeCodes code = some d → d.used = false →
      (now < d.startTime - 15 * 60000 ∨ d.endTime + 30 * 60000 < now) →
      validateAccessCode st code now =
        ({ valid := false, reason := "Code not valid at this time",
           eventData := none }, st)) :=
  ⟨validateAccessToken_early, validateAccessToken_late, validateAccessCode_outside⟩

/-- Witness for the amended C2 at concrete inputs: the same credential
stored as a token and as a code, presented too early and too late. -/
theorem c2_outside_window_amended_witness :
    validateAccessToken
        { activeTokens :=
            [("t", { eventId := 7, startTime := 3600000, endTime := 7200000,
                     used := false, usedAt := none })],
          activeCodes := [] } "t" 0 =
      ({ valid := false, reason := "Too early - access starts at 00:45",
         eventData := none },
       { activeTokens :=
           [("t", { eventId := 7, startTime := 3600000, endTime := 7200000,
                    used := false, usedAt := none })],
         activeCodes := [] }) ∧
    validateAccessCode
        { activeTokens := [],
          activeCodes :=
            [("123456", { eventId := 7, startTime := 3600000, endTime := 7200000,
                          used := false, usedAt := none })] } "123456" 99999999 =
      ({ valid := false, reason := "Code not valid at this time",
         eventData := none },
       { activeTokens := [],
         activeCodes :=
           [("123456", { eventId := 7, startTime := 3600000, endTime := 7200000,
                         used := false, usedAt := none })] }) := by
  constructor
  · have h := c2_outside_window_amended.1
      { activeTokens :=
          [("t", { eventId := 7, startTime := 3600000, endTime := 7200000,
                   used := false, usedAt := none })],
        activeCodes := [] } "t"
      { eventId := 7, startTime := 3600000, endTime := 7200000,
        used := false, usedAt := none } 0 (by rfl) rfl (by decide)
    rw [h]
    have hf : formatHHMM ((3600000 : Int) - 15 * 60000) = "00:45" := by decide
    rw [hf]
    rfl
  · exact c2_outside_window_amended.2.2
      { activeTokens := [],
        activeCodes :=
          [("123456", { eventId := 7, startTime := 3600000, endTime := 7200000,
                        used := false, usedAt := none })] } "123456"
      { eventId := 7, startTime := 3600000, endTime := 7200000,
        used := false, usedAt := none } 99999999 (by rfl) rfl (Or.inr (by decide))

/-! ## Behaviour of `DoorCodeGenerator.generateCode` -/

/-- A successful run of the attempt loop accepted a secure draw and stored
it; the accepted draw has an index inside the attempt budget. -/
theorem genLoop_some_spec (st : GenState) (id : String) (opts : GenOpts)
    (draws : Nat → List Nat) (nowMs : Int) :
    ∀ (fuel attempt : Nat) (code : String) (st' : GenState),
    genLoop st id opts draws nowMs fuel attempt = some (code, st') →
    isCodeSecure st code opts.excludePatterns = true ∧
    st' = storeCode st id code nowMs ∧
    ∃ a, attempt ≤ a ∧ a < attempt + fuel ∧
      code = generateRandomNumericCode opts.len (draws a) := by
  intro fuel
  induction fuel with
  | zero =>
      intro attempt code st' h
      simp [genLoop] at h
  | succ n ih =>
      intro attempt code st' h
      simp only [genLoop] at h
      by_cases hs : isCodeSecure st
          (generateRandomNumericCode opts.len (draws attempt))
          opts.excludePatterns = true
      · rw [if_pos hs] at h
        cases h
        exact ⟨hs, rfl, attempt, le_refl _, by omega, rfl⟩
      · rw [if_neg hs] at h
        obtain ⟨hsec, hst, a, ha1, ha2, hc⟩ := ih (attempt + 1) code st' h
        exact ⟨hsec, hst, a, by omega, by omega, hc⟩

/-- The attempt loop reads only the draws whose index lies in its budget. -/
theorem genLoop_draws_congr (st : GenState) (id : String) (opts : GenOpts)
    (nowMs : Int) :
    ∀ (fuel attempt : Nat) (draws draws' : Nat → List Nat),
    (∀ i, attempt ≤ i → i < attempt + fuel → draws i = draws' i) →
    genLoop st id opts draws nowMs fuel attempt =
      genLoop st id opts draws' nowMs fuel attempt := by
  intro fuel
  induction fuel with
  | zero => intro attempt draws draws' _; rfl
  | succ n ih =>
      intro attempt draws draws' h
      have h0 : draws attempt = draws' attempt :=
        h attempt (le_refl _) (by omega)
      simp only [genLoop, h0]
      rw [ih (attempt + 1) draws draws' (fun i hi1 hi2 => h i (by omega) (by omega))]

/-- When the loop exhausts its attempts, `generateCode` returns the
time-based fallback and leaves the generator state untouched. -/
theorem generateCode_fallback (st : GenState) (id : String) (opts : GenOpts)
    (draws : Nat → List Nat) (hashVal : Nat) (nowMs : Int)
    (h : genLoop st id opts draws nowMs opts.maxAttempts 0 = none) :
    generateCode st id opts draws hashVal nowMs = (generateTimeBased hashVal, st) := by
  simp [generateCode, h]

/-- When the loop accepts, `generateCode` returns its result. -/
theorem generateCode_of_genLoop (st : GenState) (id : String) (opts : GenOpts)
    (draws : Nat → List Nat) (hashVal : Nat) (nowMs : Int)
    (code : String) (st' : GenState)
    (h : genLoop st id opts draws nowMs opts.maxAttempts 0 = some (code, st')) :
    generateCode st id opts draws hashVal nowMs = (code, st') := by
  simp [generateCode, h]

theorem generateRandomNumericCode_length (length : Nat) (bytes : List Nat) :
    (generateRandomNumericCode length bytes).length = length := by
  simp [generateRandomNumericCode, String.length]

theorem charOfNat_digit (r : Nat) (h : r < 10) :
    (Char.ofNat (48 + r)).isDigit = true := by
  interval_cases r <;> decide

theorem generateRandomNumericCode_digits (length : Nat) (bytes : List Nat) :
    (generateRandomNumericCode length bytes).data.all Char.isDigit = true := by
  simp only [generateRandomNumericCode, List.all_eq_true]
  intro c hc
  simp only [List.mem_map, List.mem_range] at hc
  obtain ⟨i, _, hci⟩ := hc
  rw [← hci]
  exact charOfNat_digit _ (Nat.mod_lt _ (by norm_num))

/-- **C3 counterexample**: with `excludePatterns := []` and a first draw of
bytes `[7, 7]`, the loop accepts `"7777"` on its first attempt —
`hasSimplePattern` only rejects steps `+1` and `-1`, so the returned code
IS a constant-step arithmetic sequence over all digit positions
(step `0`). -/
theorem c3_constant_step_counterexample :
    (generateCode GenState.empty "res1" { excludePatterns := [] }
        (fun _ => [7, 7]) 0 0).1 = "7777" ∧
    constantStepSeq "7777" ∧
    hasSimplePattern "7777" = false := by
  refine ⟨by decide, ⟨0, by decide⟩, by decide⟩

/-- **C3 (amended)**: a code accepted on the RANDOM path of `generateCode`
is never in the `excludePatterns` blacklist, never a currently-tracked
code, and never a strictly ascending or strictly descending step-`±1`
digit run; the pattern screen rejects only those two step values (other
constant-step sequences pass, see the counterexample), and the time-based
fallback is returned with no such screening at all. -/
theorem c3_random_path_screen (st : GenState) (id : String) (opts : GenOpts)
    (draws : Nat → List Nat) (hashVal : Nat) (nowMs : Int)
    (code : String) (st' : GenState)
    (h : genLoop st id opts draws nowMs opts.maxAttempts 0 = some (code, st')) :
    generateCode st id opts draws hashVal nowMs = (code, st') ∧
    opts.excludePatterns.contains code = false ∧
    st.usedCodes.contains code = false ∧
    hasSimplePattern code = false := by
  obtain ⟨hsec, _, _⟩ := genLoop_some_spec st id opts draws nowMs opts.maxAttempts 0 code st' h
  simp only [isCodeSecure, Bool.and_eq_true, Bool.not_eq_true'] at hsec
  exact ⟨generateCode_of_genLoop st id opts draws hashVal nowMs code st' h,
    hsec.1.1, hsec.1.2, hsec.2⟩

/-- Witness for the amended C3: the default options, an empty generator
state, first draw `[2, 9]`, giving the accepted code `"2929"`. -/
theorem c3_random_path_screen_witness :
    generateCode GenState.empty "A" {} (fun _ => [2, 9]) 0 5 =
      ("2929", storeCode GenState.empty "A" "2929" 5) ∧
    (GenOpts.excludePatterns {}).contains "2929" = false ∧
    (GenState.empty.usedCodes).contains "2929" = false ∧
    hasSimplePattern "2929" = false :=
  c3_random_path_screen GenState.empty "A" {} (fun _ => [2, 9]) 0 5 "2929"
    (storeCode GenState.empty "A" "2929" 5) (by decide)

/-- The accept branch records the code under the appointment id and the
24-hour prune never removes the entry just written. -/
theorem lookupA_storeCode (st : GenState) (id code : String) (nowMs : Int) :
    lookupA (storeCode st id code nowMs).codeHistory id =
      some { code := code, generatedAt := nowMs, appointmentId := id } := by
  have hcut : ¬ ((nowMs : Int) < nowMs - 24 * 60 * 60 * 1000) := by omega
  simp only [storeCode, cleanupOldCodes]
  exact lookupA_filter _ _ _ _ (lookupA_setA_self _ _ _) (by simp [hcut])

/-- **C9 counterexample**: with `maxAttempts := 0` the attempt loop is
never entered and `generateCode` returns the time-based fallback
(`hashVal = 0` gives `"1000"`) WITHOUT storing it in `codeHistory`; the
immediately following `validateCode` of the very code just returned is
`false`, contradicting "validate succeeds immediately after generation". -/
theorem c9_fallback_counterexample :
    (generateCode GenState.empty "A" { maxAttempts := 0 }
        (fun _ => [1, 2]) 0 0).1 = "1000" ∧
    validateCode
        (generateCode GenState.empty "A" { maxAttempts := 0 }
          (fun _ => [1, 2]) 0 0).2 "1000" "A" = false := by
  exact ⟨by decide, by decide⟩

/-- **C9 (amended)**: `validateCode(code, reservationId)` is true iff
`code` equals the code most recently STORED for that reservation, and a
random-path `generateCode` stores its accepted code — so validation
succeeds immediately after a random-path generation, and only for that
code.  A fallback generation stores nothing (the state is returned
untouched), so its code does not validate. -/
theorem c9_validate_amended :
    (∀ (st : GenState) (id : String) (opts : GenOpts) (draws : Nat → List Nat)
        (hashVal : Nat) (nowMs : Int) (code : String) (st' : GenState),
      genLoop st id opts draws nowMs opts.maxAttempts 0 = some (code, st') →
      generateCode st id opts draws hashVal nowMs = (code, st') ∧
      validateCode st' code id = true ∧
      (∀ c, validateCode st' c id = true → c = code)) ∧
    (∀ (st : GenState) (id : String) (opts : GenOpts) (draws : Nat → List Nat)
        (hashVal : Nat) (nowMs : Int),
      genLoop st id opts draws nowMs opts.maxAttempts 0 = none →
      generateCode st id opts draws hashVal nowMs = (generateTimeBased hashVal, st)) := by
  constructor
  · intro st id opts draws hashVal nowMs code st' h
    obtain ⟨_, hst, _⟩ := genLoop_some_spec st id opts draws nowMs opts.maxAttempts 0 code st' h
    subst hst
    refine ⟨generateCode_of_genLoop st id opts draws hashVal nowMs code _ h, ?_, ?_⟩
    · simp [validateCode, lookupA_storeCode]
    · intro c hc
      simp only [validateCode, lookupA_storeCode] at hc
      exact (eq_of_beq hc).symm
  · intro st id opts draws hashVal nowMs h
    exact generateCode_fallback st id opts draws hashVal nowMs h

/-- Witness for the amended C9: the random path accepts `"2929"` for
appointment `"A"`, and exactly that code validates afterwards. -/
theorem c9_validate_amended_witness :
    generateCode GenState.empty "A" {} (fun _ => [2, 9]) 0 5 =
      ("2929", storeCode GenState.empty "A" "2929" 5) ∧
    validateCode (storeCode GenState.empty "A" "2929" 5) "2929" "A" = true ∧
    (∀ c, validateCode (storeCode GenState.empty "A" "2929" 5) c "A" → c = "2929") :=
  c9_validate_amended.1 GenState.empty "A" {} (fun _ => [2, 9]) 0 5 "2929"
    (storeCode GenState.empty "A" "2929" 5) (by decide)

/-- **C10 counterexample**: requesting `length = 6` with
`maxAttempts := 0` forces the fallback, whose code
`hash % 9000 + 1000` is ALWAYS the decimal string of a four-digit number —
the returned code has length 4, not the requested 6. -/
theorem c10_fallback_length_counterexample :
    (generateCode GenState.empty "B" { len := 6, maxAttempts := 0 }
        (fun _ => [1, 2, 3]) 0 0).1.length = 4 ∧
    (GenOpts.len { len := 6, maxAttempts := 0 }) = 6 ∧
    (4 : Nat) ≠ 6 := ⟨by decide, by decide, by decide⟩

/-- **C10 (amended)**: `generateCode` always terminates and never raises:
it inspects at most `maxAttempts` random draws (its result is unchanged
under any modification of the draws at indices `≥ maxAttempts`); a
random-path code is a digit string of exactly the requested length; the
fallback code is the decimal string of a number in `[1000, 9999]` (so a
digit string of length 4 regardless of the requested length). -/
theorem c10_generation_total_amended :
    (∀ (st : GenState) (id : String) (opts : GenOpts)
        (draws draws' : Nat → List Nat) (hashVal : Nat) (nowMs : Int),
      (∀ i, i < opts.maxAttempts → draws i = draws' i) →
      generateCode st id opts draws hashVal nowMs =
        generateCode st id opts draws' hashVal nowMs) ∧
    (∀ (st : GenState) (id : String) (opts : GenOpts) (draws : Nat → List Nat)
        (nowMs : Int) (code : String) (st' : GenState),
      genLoop st id opts draws nowMs opts.maxAttempts 0 = some (code, st') →
      code.length = opts.len ∧ code.data.all Char.isDigit = true) ∧
    (∀ hashVal : Nat, ∃ n : Nat, 1000 ≤ n ∧ n ≤ 9999 ∧
      generateTimeBased hashVal = toString n) := by
  refine ⟨?_, ?_, ?_⟩
  · intro st id opts draws draws' hashVal nowMs h
    simp only [generateCode]
    rw [genLoop_draws_congr st id opts nowMs opts.maxAttempts 0 draws draws'
      (fun i _ hi2 => h i (by omega))]
  · intro st id opts draws nowMs code st' h
    obtain ⟨_, _, a, _, _, hc⟩ :=
      genLoop_some_spec st id opts draws nowMs opts.maxAttempts 0 code st' h
    subst hc
    exact ⟨generateRandomNumericCode_length _ _, generateRandomNumericCode_digits _ _⟩
  · intro hashVal
    refine ⟨hashVal % 9000 + 1000, ?_, ?_, rfl⟩
    · omega
    · have : hashVal % 9000 < 9000 := Nat.mod_lt _ (by norm_num)
      omega

/-- Witness for the amended C10: budget-indifference and shape at
concrete inputs (`"2929"`, the accepted first draw). -/
theorem c10_generation_total_amended_witness :
    ("2929" : String).length = GenOpts.len {} ∧
    ("2929" : String).data.all Char.isDigit = true :=
  c10_generation_total_amended.2.1 GenState.empty "A" {} (fun _ => [2, 9]) 5
    "2929" (storeCode GenState.empty "A" "2929" 5) (by decide)

/-! ## Behaviour of the Amelia poll cycle -/

/-- A fully successful `handleBookingAppointment`: code issued,
confirmation sent, both notes added, the re-lock timer armed, dedup
fields untouched, no throw. -/
theorem handleBookingAppointment_ok (buffer : Nat) (env : AmeliaEnv)
    (st : AmeliaState) (a : Appointment) (nowMs endMs : Int)
    (hemail : env.confirmationEmailOk a.id = true)
    (hnote1 : env.codeNoteOk a.id = true)
    (hnote2 : env.processedNoteOk a.id = true)
    (hend : a.bookingEnd = some endMs) :
    handleBookingAppointment buffer env st a nowMs =
      ({ processedAppointments := st.processedAppointments,
         activeLockTimers := setA st.activeLockTimers a.id
           (scheduleAutoLockFireAt buffer endMs nowMs),
         codeGen := (generateCode st.codeGen (toString a.id) { len := 4 }
           (env.draws a.id) (env.hashVal a.id) nowMs).2 },
       ([AmeliaEff.codeIssued a.id (generateCode st.codeGen (toString a.id)
           { len := 4 } (env.draws a.id) (env.hashVal a.id) nowMs).1,
         AmeliaEff.confirmationSent a.id, AmeliaEff.noteAdded a.id,
         AmeliaEff.timerArmed a.id (scheduleAutoLockFireAt buffer endMs nowMs),
         AmeliaEff.noteAdded a.id], true)) := by
  simp [handleBookingAppointment, sendBookingConfirmation, scheduleAutoLock,
    hemail, hnote1, hnote2, hend]

/-- Poll cycle over a single not-yet-seen appointment, all calls
succeeding: handle it, add the dedup key, prune old keys. -/
theorem cycle_single_ok (buffer : Nat) (env : AmeliaEnv) (st : AmeliaState)
    (a : Appointment) (nowMs endMs nowSec : Int)
    (hkey : (a.id, a.startUnix) ∉ st.processedAppointments)
    (hemail : env.confirmationEmailOk a.id = true)
    (hnote1 : env.codeNoteOk a.id = true)
    (hnote2 : env.processedNoteOk a.id = true)
    (hend : a.bookingEnd = some endMs) :
    processUpcomingAppointments buffer env st nowMs nowSec [a] =
      ({ processedAppointments :=
           cleanupProcessedKeys (st.processedAppointments ++ [(a.id, a.startUnix)]) nowSec,
         activeLockTimers := setA st.activeLockTimers a.id
           (scheduleAutoLockFireAt buffer endMs nowMs),
         codeGen := (generateCode st.codeGen (toString a.id) { len := 4 }
           (env.draws a.id) (env.hashVal a.id) nowMs).2 },
       [AmeliaEff.codeIssued a.id (generateCode st.codeGen (toString a.id)
           { len := 4 } (env.draws a.id) (env.hashVal a.id) nowMs).1,
        AmeliaEff.confirmationSent a.id, AmeliaEff.noteAdded a.id,
        AmeliaEff.timerArmed a.id (scheduleAutoLockFireAt buffer endMs nowMs),
        AmeliaEff.noteAdded a.id]) := by
  simp only [processUpcomingAppointments, processAppointmentsList, if_neg hkey,
    handleBookingAppointment_ok buffer env st a nowMs endMs hemail hnote1 hnote2 hend]
  simp

/-- Poll cycle over a single already-seen appointment: skipped, state and
trace untouched. -/
theorem cycle_single_skip (buffer : Nat) (env : AmeliaEnv) (st : AmeliaState)
    (a : Appointment) (nowMs nowSec : Int)
    (hmem : (a.id, a.startUnix) ∈ st.processedAppointments) :
    processUpcomingAppointments buffer env st nowMs nowSec [a] = (st, []) := by
  simp [processUpcomingAppointments, processAppointmentsList, hmem]

/-- **C4**: an occurrence (id, start-epoch) observed in three consecutive
poll cycles, with all external calls succeeding, yields exactly one issued
door code, exactly one confirmation, and exactly one armed re-lock timer:
the first cycle adds the dedup key (kept by the 24-hour prune while the
occurrence is recent), so the second and third cycles skip it and emit
nothing. -/
theorem c4_occurrence_processed_once (buffer : Nat) (env : AmeliaEnv)
    (st : AmeliaState) (a : Appointment) (endMs nowMs now1 now2 now3 : Int)
    (hkey : (a.id, a.startUnix) ∉ st.processedAppointments)
    (hemail : env.confirmationEmailOk a.id = true)
    (hnote1 : env.codeNoteOk a.id = true)
    (hnote2 : env.processedNoteOk a.id = true)
    (hend : a.bookingEnd = some endMs)
    (hfresh : ¬ (a.startUnix < now1 - 24 * 3600)) :
    (processUpcomingAppointments buffer env
        (processUpcomingAppointments buffer env
          (processUpcomingAppointments buffer env st nowMs now1 [a]).1
          nowMs now2 [a]).1 nowMs now3 [a]).2 = [] ∧
    (processUpcomingAppointments buffer env
        (processUpcomingAppointments buffer env st nowMs now1 [a]).1
        nowMs now2 [a]).2 = [] ∧
    ((processUpcomingAppointments buffer env st nowMs now1 [a]).2.countP
        (isCodeIssuedFor a.id) = 1 ∧
      (processUpcomingAppointments buffer env st nowMs now1 [a]).2.countP
        (isConfirmationFor a.id) = 1 ∧
      (processUpcomingAppointments buffer env st nowMs now1 [a]).2.countP
        (isTimerArmedFor a.id) = 1) := by
  have h1 := cycle_single_ok buffer env st a nowMs endMs now1 hkey hemail hnote1 hnote2 hend
  have hmem : (a.id, a.startUnix) ∈
      (processUpcomingAppointments buffer env st nowMs now1 [a]).1.processedAppointments := by
    rw [h1]
    exact List.mem_filter.mpr
      ⟨List.mem_append_right _ (List.mem_singleton.mpr rfl), by simp; omega⟩
  have h2 := cycle_single_skip buffer env
    (processUpcomingAppointments buffer env st nowMs now1 [a]).1 a nowMs now2 hmem
  have h3 := cycle_single_skip buffer env
    (processUpcomingAppointments buffer env
      (processUpcomingAppointments buffer env st nowMs now1 [a]).1 nowMs now2 [a]).1
    a nowMs now3 (by rw [h2]; exact hmem)
  refine ⟨by rw [h3], by rw [h2], ?_, ?_, ?_⟩ <;>
    rw [h1] <;>
    simp [List.countP_cons, isCodeIssuedFor, isConfirmationFor, isTimerArmedFor]

/-- Witness for C4 at a concrete occurrence (id 1, start epoch 1000,
booking end 10^7 ms), all external calls succeeding, draws accepting
`"2929"` on the first attempt. -/
theorem c4_occurrence_processed_once_witness :
    (processUpcomingAppointments 5
        ⟨fun _ => true, fun _ => true, fun _ => true, true,
         fun _ _ => [2, 9], fun _ => 0⟩
        (processUpcomingAppointments 5
          ⟨fun _ => true, fun _ => true, fun _ => true, true,
           fun _ _ => [2, 9], fun _ => 0⟩
          (processUpcomingAppointments 5
            ⟨fun _ => true, fun _ => true, fun _ => true, true,
             fun _ _ => [2, 9], fun _ => 0⟩
            ⟨[], [], GenState.empty⟩ 0 1000 [⟨1, 1000, some 10000000, "Ice bath"⟩]).1
          0 1030 [⟨1, 1000, some 10000000, "Ice bath"⟩]).1
        0 1060 [⟨1, 1000, some 10000000, "Ice bath"⟩]).2 = [] ∧
    (processUpcomingAppointments 5
        ⟨fun _ => true, fun _ => true, fun _ => true, true,
         fun _ _ => [2, 9], fun _ => 0⟩
        (processUpcomingAppointments 5
          ⟨fun _ => true, fun _ => true, fun _ => true, true,
           fun _ _ => [2, 9], fun _ => 0⟩
          ⟨[], [], GenState.empty⟩ 0 1000 [⟨1, 1000, some 10000000, "Ice bath"⟩]).1
        0 1030 [⟨1, 1000, some 10000000, "Ice bath"⟩]).2 = [] ∧
    ((processUpcomingAppointments 5
        ⟨fun _ => true, fun _ => true, fun _ => true, true,
         fun _ _ => [2, 9], fun _ => 0⟩
        ⟨[], [], GenState.empty⟩ 0 1000 [⟨1, 1000, some 10000000, "Ice bath"⟩]).2.countP
          (isCodeIssuedFor 1) = 1 ∧
      (processUpcomingAppointments 5
        ⟨fun _ => true, fun _ => true, fun _ => true, true,
         fun _ _ => [2, 9], fun _ => 0⟩
        ⟨[], [], GenState.empty⟩ 0 1000 [⟨1, 1000, some 10000000, "Ice bath"⟩]).2.countP
          (isConfirmationFor 1) = 1 ∧
      (processUpcomingAppointments 5
        ⟨fun _ => true, fun _ => true, fun _ => true, true,
         fun _ _ => [2, 9], fun _ => 0⟩
        ⟨[], [], GenState.empty⟩ 0 1000 [⟨1, 1000, some 10000000, "Ice bath"⟩]).2.countP
          (isTimerArmedFor 1) = 1) :=
  c4_occurrence_processed_once 5
    ⟨fun _ => true, fun _ => true, fun _ => true, true,
     fun _ _ => [2, 9], fun _ => 0⟩
    ⟨[], [], GenState.empty⟩ ⟨1, 1000, some 10000000, "Ice bath"⟩
    10000000 0 1000 1030 1060
    (by decide) rfl rfl rfl rfl (by decide)

/-- `handleBookingAppointment` arms the re-lock timer whenever
`bookingEnd` is present, whatever the outcome of the email and note
calls (they are made after, or swallowed before, the arming). -/
theorem handle_arms_timer (buffer : Nat) (env : AmeliaEnv) (st : AmeliaState)
    (a : Appointment) (nowMs endMs : Int) (hend : a.bookingEnd = some endMs) :
    AmeliaEff.timerArmed a.id (scheduleAutoLockFireAt buffer endMs nowMs) ∈
      (handleBookingAppointment buffer env st a nowMs).2.1 := by
  cases h1 : env.confirmationEmailOk a.id <;>
    cases h2 : env.codeNoteOk a.id <;>
      cases h3 : env.processedNoteOk a.id <;>
        simp [handleBookingAppointment, sendBookingConfirmation, scheduleAutoLock,
          hend, h1, h2, h3]

/-- **C6 counterexample**: buffer 5 minutes, booking end at `10^7` ms,
observed at `nowMs = 0`: the armed timer fires at `12100000` ms
(= end + 35 min), not at end + buffer = `10300000` ms. -/
theorem c6_fire_time_counterexample :
    lookupA (processUpcomingAppointments 5
        ⟨fun _ => true, fun _ => true, fun _ => true, true,
         fun _ _ => [2, 9], fun _ => 0⟩
        ⟨[], [], GenState.empty⟩ 0 1000
        [⟨1, 1000, some 10000000, "Ice bath"⟩]).1.activeLockTimers 1 =
      some 12100000 ∧
    (12100000 : Int) ≠ 10000000 + 5 * 60000 := ⟨by decide, by decide⟩

/-- **C6 (amended)**: for a processed reservation the Amelia engine arms
its re-lock timer at `max(endTime + (30 + buffer) minutes, now + 60 s)`:
the offset added to `endTime` is `getLockDurationForService`, which here
always resolves to the DEFAULT session duration 30 plus the buffer
(the lookup key is `appointment.service.name`, undefined on the
service-name string), and the whole instant is clamped to at least one
minute after the processing instant.  The calendar revision is further
from the claim still: its timer fires `lockDurationMinutes` after the
processing instant, with no reference to `endTime` at all. -/
theorem c6_fire_time_amended (buffer : Nat) (env : AmeliaEnv)
    (st : AmeliaState) (a : Appointment) (endMs nowMs nowSec : Int)
    (hkey : (a.id, a.startUnix) ∉ st.processedAppointments)
    (hend : a.bookingEnd = some endMs) :
    getLockDurationForService buffer none = sessionDurationsDefault + buffer ∧
    scheduleAutoLockFireAt buffer endMs nowMs =
      max (endMs + ((sessionDurationsDefault + buffer : Nat) : Int) * 60000)
        (nowMs + 60000) ∧
    AmeliaEff.timerArmed a.id (scheduleAutoLockFireAt buffer endMs nowMs) ∈
      (processUpcomingAppointments buffer env st nowMs nowSec [a]).2 ∧
    (∀ (lockDur : Nat) (cst : CalState) (id : Nat) (nowMs' : Int),
      lockDur ≠ 0 →
      calScheduleAutoLock lockDur cst id nowMs' =
        ({ activeLockTimers :=
             setA cst.activeLockTimers id (nowMs' + (lockDur : Int) * 60000) },
         [CalEff.timerArmed id (nowMs' + (lockDur : Int) * 60000)])) := by
  refine ⟨rfl, rfl, ?_, ?_⟩
  · have hmem := handle_arms_timer buffer env st a nowMs endMs hend
    by_cases hok : (handleBookingAppointment buffer env st a nowMs).2.2 = true
    · simp [processUpcomingAppointments, processAppointmentsList, if_neg hkey,
        hok, hmem]
    · simp [processUpcomingAppointments, processAppointmentsList, if_neg hkey,
        hok, hmem]
  · intro lockDur cst id nowMs' hld
    simp [calScheduleAutoLock, hld]

/-- Witness for the amended C6: buffer 5, booking end `10^7` ms, observed
at 0: the armed instant is `12100000 = max(10^7 + 35 min, 60 s)`. -/
theorem c6_fire_time_amended_witness :
    getLockDurationForService 5 none = sessionDurationsDefault + 5 ∧
    scheduleAutoLockFireAt 5 10000000 0 =
      max ((10000000 : Int) + ((sessionDurationsDefault + 5 : Nat) : Int) * 60000)
        ((0 : Int) + 60000) ∧
    AmeliaEff.timerArmed 1 (scheduleAutoLockFireAt 5 10000000 0) ∈
      (processUpcomingAppointments 5
        ⟨fun _ => true, fun _ => true, fun _ => true, true,
         fun _ _ => [2, 9], fun _ => 0⟩
        ⟨[], [], GenState.empty⟩ 0 1000
        [⟨1, 1000, some 10000000, "Ice bath"⟩]).2 ∧
    (∀ (lockDur : Nat) (cst : CalState) (id : Nat) (nowMs' : Int),
      lockDur ≠ 0 →
      calScheduleAutoLock lockDur cst id nowMs' =
        ({ activeLockTimers :=
             setA cst.activeLockTimers id (nowMs' + (lockDur : Int) * 60000) },
         [CalEff.timerArmed id (nowMs' + (lockDur : Int) * 60000)])) :=
  c6_fire_time_amended 5
    ⟨fun _ => true, fun _ => true, fun _ => true, true,
     fun _ _ => [2, 9], fun _ => 0⟩
    ⟨[], [], GenState.empty⟩ ⟨1, 1000, some 10000000, "Ice bath"⟩
    10000000 0 1000 (by decide) rfl

/-! ## Failure isolation in the poll cycle -/

/-- The calendar `handleBookingEvent` always reaches the
`eufyService.unlockDoor()` call, whatever then fails. -/
theorem handleBookingEvent_unlock_called (lockDur : Nat) (env : CalEnv)
    (st : CalState) (e : CalEvent) (nowMs : Int) :
    CalEff.unlockCalled e.id ∈ (handleBookingEvent lockDur env st e nowMs).2 := by
  by_cases h : env.unlockOk e.id = true <;> simp [handleBookingEvent, h]

/-- **C7 counterexample**: two fresh appointments, the `addAppointmentNote`
call of the FIRST one failing: the Amelia poll cycle issues the first
code, attempts the error notifications, and returns — the second
appointment is never processed in this cycle (no code issued for it, no
dedup key added), contradicting "no single reservation's failure aborts
the rest of the poll cycle". -/
theorem c7_abort_counterexample :
    (processUpcomingAppointments 5
        ⟨fun _ => true, fun _ => true, fun i => decide (i ≠ 1), true,
         fun _ _ => [2, 9], fun _ => 0⟩
        ⟨[], [], GenState.empty⟩ 0 1000
        [⟨1, 1000, some 10000000, "Ice bath"⟩,
         ⟨2, 2000, some 20000000, "Ice bath"⟩]).2.countP (isCodeIssuedFor 1) = 1 ∧
    (processUpcomingAppointments 5
        ⟨fun _ => true, fun _ => true, fun i => decide (i ≠ 1), true,
         fun _ _ => [2, 9], fun _ => 0⟩
        ⟨[], [], GenState.empty⟩ 0 1000
        [⟨1, 1000, some 10000000, "Ice bath"⟩,
         ⟨2, 2000, some 20000000, "Ice bath"⟩]).2.countP (isCodeIssuedFor 2) = 0 ∧
    (2, 2000) ∉ (processUpcomingAppointments 5
        ⟨fun _ => true, fun _ => true, fun i => decide (i ≠ 1), true,
         fun _ _ => [2, 9], fun _ => 0⟩
        ⟨[], [], GenState.empty⟩ 0 1000
        [⟨1, 1000, some 10000000, "Ice bath"⟩,
         ⟨2, 2000, some 20000000, "Ice bath"⟩]).1.processedAppointments ∧
    AmeliaEff.errorEmail ∈ (processUpcomingAppointments 5
        ⟨fun _ => true, fun _ => true, fun i => decide (i ≠ 1), true,
         fun _ _ => [2, 9], fun _ => 0⟩
        ⟨[], [], GenState.empty⟩ 0 1000
        [⟨1, 1000, some 10000000, "Ice bath"⟩,
         ⟨2, 2000, some 20000000, "Ice bath"⟩]).2 := by
  refine ⟨by decide, by decide, by decide, by decide⟩

/-- **C7 (amended)**: a per-reservation failure is caught (the cycle
itself returns normally, attempting a best-effort error email) in both
revisions, but the continuation behaviour differs.  The calendar engine
swallows the failure inside `handleBookingEvent` and reaches every valid
event of the cycle.  The Amelia engine RE-THROWS from
`handleBookingAppointment`, so the remaining appointments of that cycle
are skipped — they are retried in the next cycle, because the failed
appointment's dedup key is never added. -/
theorem c7_failure_isolation_amended :
    (∀ (lockDur : Nat) (env : CalEnv) (st : CalState) (nowMs : Int)
        (events : List CalEvent) (e : CalEvent),
      e ∈ events → e.valid = true →
      CalEff.unlockCalled e.id ∈
        (processUpcomingEvents lockDur env st nowMs events).2) ∧
    (∀ (buffer : Nat) (env : AmeliaEnv) (st : AmeliaState) (nowMs nowSec : Int)
        (a : Appointment) (rest : List Appointment),
      (a.id, a.startUnix) ∉ st.processedAppointments →
      env.processedNoteOk a.id = false →
      processAppointmentsList buffer env st nowMs nowSec (a :: rest) =
        ((handleBookingAppointment buffer env st a nowMs).1,
         (handleBookingAppointment buffer env st a nowMs).2.1 ++
           (if env.errorEmailOk then [AmeliaEff.errorEmail] else []))) := by
  constructor
  · intro lockDur env st nowMs events
    induction events generalizing st with
    | nil =>
        intro e he _
        simp at he
    | cons hd tl ih =>
        intro e he hv
        rcases List.mem_cons.mp he with heq | htl
        · subst heq
          simp only [processUpcomingEvents, hv, if_true]
          exact List.mem_append_left _ (handleBookingEvent_unlock_called _ _ _ _ _)
        · simp only [processUpcomingEvents]
          exact List.mem_append_right _ (ih _ e htl hv)
  · intro buffer env st nowMs nowSec a rest hkey hnote
    have hfail : (handleBookingAppointment buffer env st a nowMs).2.2 = false := by
      simp [handleBookingAppointment, hnote]
    simp [processAppointmentsList, if_neg hkey, hfail]

/-- Witness for the amended C7: a two-event calendar cycle whose first
unlock fails still unlocks the second event; a two-appointment Amelia
cycle whose first note call fails stops after the first appointment. -/
theorem c7_failure_isolation_amended_witness :
    CalEff.unlockCalled 2 ∈
      (processUpcomingEvents 5 ⟨fun i => decide (i ≠ 1), fun _ => true, true⟩
        ⟨[]⟩ 0 [⟨1, true⟩, ⟨2, true⟩]).2 ∧
    processAppointmentsList 5
        ⟨fun _ => true, fun _ => true, fun i => decide (i ≠ 1), true,
         fun _ _ => [2, 9], fun _ => 0⟩
        ⟨[], [], GenState.empty⟩ 0 1000
        [⟨1, 1000, some 10000000, "Ice bath"⟩,
         ⟨2, 2000, some 20000000, "Ice bath"⟩] =
      ((handleBookingAppointment 5
          ⟨fun _ => true, fun _ => true, fun i => decide (i ≠ 1), true,
           fun _ _ => [2, 9], fun _ => 0⟩
          ⟨[], [], GenState.empty⟩ ⟨1, 1000, some 10000000, "Ice bath"⟩ 0).1,
       (handleBookingAppointment 5
          ⟨fun _ => true, fun _ => true, fun i => decide (i ≠ 1), true,
           fun _ _ => [2, 9], fun _ => 0⟩
          ⟨[], [], GenState.empty⟩ ⟨1, 1000, some 10000000, "Ice bath"⟩ 0).2.1 ++
         [AmeliaEff.errorEmail]) :=
  ⟨c7_failure_isolation_amended.1 5 ⟨fun i => decide (i ≠ 1), fun _ => true, true⟩
      ⟨[]⟩ 0 [⟨1, true⟩, ⟨2, true⟩] ⟨2, true⟩ (by decide) rfl,
   c7_failure_isolation_amended.2 5
      ⟨fun _ => true, fun _ => true, fun i => decide (i ≠ 1), true,
       fun _ _ => [2, 9], fun _ => 0⟩
      ⟨[], [], GenState.empty⟩ 0 1000 ⟨1, 1000, some 10000000, "Ice bath"⟩
      [⟨2, 2000, some 20000000, "Ice bath"⟩] (by decide) (by decide)⟩

/-! ## Lifecycle -/

/-- **C8**: after a successful `initialize()`, `start()` in the calendar
revision is a no-op — `initialize()` already set `isRunning = true`, so
`start()` hits its already-running guard and the three cron jobs (created
with `scheduled: false`) are never started.  The Amelia revision separates
`isInitialized` from `isRunning` and its `start()` does start the jobs. -/
theorem c8_start_after_initialize :
    (calInitialize freshEngine).isRunning = true ∧
    (calStart (calInitialize freshEngine)).cronStarted = false ∧
    (ameliaInitialize freshEngine).isRunning = false ∧
    (ameliaStart (ameliaInitialize freshEngine)).cronStarted = true ∧
    (ameliaStart (ameliaInitialize freshEngine)).isRunning = true := by
  decide

/-! ## Timers across `stop()` -/

theorem findTimer_append_left (l l' : List TimerRec) (tid : Nat) (r : TimerRec)
    (h : findTimer l tid = some r) : findTimer (l ++ l') tid = some r := by
  induction l with
  | nil => simp [findTimer] at h
  | cons hd tl ih =>
      by_cases hb : (hd.tid == tid) = true
      · simp only [findTimer, List.cons_append, List.find?] at h ⊢
        rw [hb] at h ⊢
        exact h
      · simp only [findTimer, List.cons_append, List.find?] at h ⊢
        rw [Bool.not_eq_true] at hb
        rw [hb] at h ⊢
        exact ih h

theorem findTimer_map (l : List TimerRec) (f : TimerRec → TimerRec) (tid : Nat)
    (hf : ∀ x, (f x).tid = x.tid) :
    findTimer (l.map f) tid = Option.map f (findTimer l tid) := by
  induction l with
  | nil => rfl
  | cons hd tl ih =>
      by_cases hb : (hd.tid == tid) = true
      · simp only [findTimer, List.map_cons, List.find?, hf]
        rw [hb]
        rfl
      · simp only [findTimer, List.map_cons, List.find?, hf]
        rw [Bool.not_eq_true] at hb
        rw [hb]
        exact ih

/-- A `clearTimeout`-ed instance stays cleared across every further step,
and no step emits its `lockDoor()` call. -/
theorem tstep_preserves_cancelled (s : TimerSys) (ev : TEvent) (tid : Nat)
    (h : cancelledAt s tid) :
    cancelledAt (tstep s ev).1 tid ∧ tid ∉ (tstep s ev).2 := by
  obtain ⟨r, hr, hc⟩ := h
  cases ev with
  | armTimer aid fireAt =>
      refine ⟨⟨r, ?_, hc⟩, by simp [tstep]⟩
      simp only [tstep]
      exact findTimer_append_left _ _ _ _ hr
  | timerRan tid' =>
      rcases hm : findTimer s.timers tid' with _ | r'
      · exact ⟨⟨r, by simp [tstep, hm, hr], hc⟩, by simp [tstep, hm]⟩
      · by_cases hcf : (r'.cancelled || r'.fired) = true
        · exact ⟨⟨r, by simp only [tstep, hm, if_pos hcf]; exact hr, hc⟩,
            by simp [tstep, hm, hcf]⟩
        · by_cases ht : tid' = tid
          · subst ht
            rw [hm] at hr
            cases hr
            rw [hc] at hcf
            simp at hcf
          · refine ⟨⟨(fun x => if (x.tid == tid') = true then
                { x with fired := true } else x) r, ?_, ?_⟩, ?_⟩
            · simp only [tstep, hm, if_neg hcf]
              rw [findTimer_map _ _ _ (by intro x; split_ifs <;> rfl), hr]
              rfl
            · by_cases hx : (r.tid == tid') = true <;> simp [hx, hc]
            · simp only [tstep, hm, if_neg hcf]
              simp only [List.mem_singleton]
              exact fun h' => ht h'.symm
  | engineStop =>
      refine ⟨⟨(fun x => if (lookupA s.activeLockTimers x.aid == some x.tid) = true
          then { x with cancelled := true } else x) r, ?_, ?_⟩, by simp [tstep]⟩
      · simp only [tstep]
        rw [findTimer_map _ _ _ (by intro x; split_ifs <;> rfl), hr]
        rfl
      · by_cases hx : (lookupA s.activeLockTimers r.aid == some r.tid) = true <;>
          simp [hx, hc]

/-- No event sequence starting from a state with a cleared instance ever
emits that instance's `lockDoor()` call. -/
theorem trun_no_cancelled_fire (tid : Nat) :
    ∀ (evs : List TEvent) (s : TimerSys), cancelledAt s tid →
      tid ∉ (trun s evs).2 := by
  intro evs
  induction evs with
  | nil =>
      intro s _
      simp [trun]
  | cons ev evs ih =>
      intro s h
      obtain ⟨h1, h2⟩ := tstep_preserves_cancelled s ev tid h
      simp only [trun, List.mem_append]
      exact fun hcon => hcon.elim h2 (ih _ h1)

/-- `stop()` clears the tracked instance of every `activeLockTimers`
entry and empties the map. -/
theorem tstep_stop_cancels (s : TimerSys) (r : TimerRec)
    (hmap : lookupA s.activeLockTimers r.aid = some r.tid)
    (hrec : findTimer s.timers r.tid = some r) :
    (tstep s TEvent.engineStop).1.activeLockTimers = [] ∧
    findTimer (tstep s TEvent.engineStop).1.timers r.tid =
      some { r with cancelled := true } := by
  refine ⟨rfl, ?_⟩
  simp only [tstep]
  rw [findTimer_map _ _ _ (by intro x; split_ifs <;> rfl), hrec]
  simp [hmap]

/-- **C5**: `stop()` cancels every timer instance tracked in
`activeLockTimers` (in particular every one that has not yet fired) and
empties the set; afterwards, no event sequence whatsoever — further
arming, firing of other timers, more stops — ever produces the
`lockDoor()` call of a timer cancelled by the stop. -/
theorem c5_stop_cancels_timers (s : TimerSys) (r : TimerRec) (evs : List TEvent)
    (hmap : lookupA s.activeLockTimers r.aid = some r.tid)
    (hrec : findTimer s.timers r.tid = some r)
    (_hunfired : r.fired = false) :
    (tstep s TEvent.engineStop).1.activeLockTimers = [] ∧
    findTimer (tstep s TEvent.engineStop).1.timers r.tid =
      some { r with cancelled := true } ∧
    r.tid ∉ (trun (tstep s TEvent.engineStop).1 evs).2 := by
  obtain ⟨h1, h2⟩ := tstep_stop_cancels s r hmap hrec
  exact ⟨h1, h2, trun_no_cancelled_fire r.tid evs _ ⟨{ r with cancelled := true }, h2, rfl⟩⟩

/-- Witness for C5: one armed, unfired timer (instance 0 for appointment
1); after `stop()` the map is empty, the instance is cancelled, and a
trace that tries to fire it (among other events) never emits its lock
call. -/
theorem c5_stop_cancels_timers_witness :
    (tstep ⟨[⟨0, 1, 5000, false, false⟩], [(1, 0)], 1⟩
        TEvent.engineStop).1.activeLockTimers = [] ∧
    findTimer (tstep ⟨[⟨0, 1, 5000, false, false⟩], [(1, 0)], 1⟩
        TEvent.engineStop).1.timers 0 = some ⟨0, 1, 5000, true, false⟩ ∧
    (0 : Nat) ∉ (trun (tstep ⟨[⟨0, 1, 5000, false, false⟩], [(1, 0)], 1⟩
        TEvent.engineStop).1
        [TEvent.timerRan 0, TEvent.armTimer 2 9000, TEvent.timerRan 1,
         TEvent.timerRan 0]).2 :=
  c5_stop_cancels_timers ⟨[⟨0, 1, 5000, false, false⟩], [(1, 0)], 1⟩
    ⟨0, 1, 5000, false, false⟩
    [TEvent.timerRan 0, TEvent.armTimer 2 9000, TEvent.timerRan 1,
     TEvent.timerRan 0] rfl rfl rfl

end EufyAutomation
